import Mathlib

/-!
Shallow embedding of `src/config.py` and `src/crypto_utils_sodium.py` from
the repository `dashboard-data-hoarder`, together with proofs of the spec's
claims about them.

Modelling conventions:
* A process environment is a function `Env := String → Option String`
  (`os.getenv name` returns `none` when the variable is unset, and the
  stored string — possibly empty — otherwise).
* Python strings are Lean `String`s; byte sequences are `List Nat` with
  each element `< 256`.
* Python exceptions are modelled by the inductive `PyErr`; a fallible
  operation returns `Except PyErr α`.
* Module-level mutable state (`_cfg`, `Config._engine`) is passed
  explicitly; engine construction is given a fresh identifier from a
  construction counter so that handle identity and the number of pool
  constructions are observable.
* String predicates (`strip`, `lower`, `int`) are modelled on the ASCII
  and Latin-1/Unicode-whitespace behaviour of CPython, which covers every
  value the spec and the claims mention.
-/

/-- The set of characters stripped by Python `str.strip()`
(CPython `Py_UNICODE_ISSPACE`). -/
def pyIsSpace (c : Char) : Bool :=
  (9 ≤ c.toNat ∧ c.toNat ≤ 13) ∨ (28 ≤ c.toNat ∧ c.toNat ≤ 31) ∨
  c.toNat = 32 ∨ c.toNat = 133 ∨ c.toNat = 160 ∨ c.toNat = 0x1680 ∨
  (0x2000 ≤ c.toNat ∧ c.toNat ≤ 0x200A) ∨ c.toNat = 0x2028 ∨
  c.toNat = 0x2029 ∨ c.toNat = 0x202F ∨ c.toNat = 0x205F ∨ c.toNat = 0x3000

/-- Python `str.strip()`: drop leading and trailing whitespace. -/
def pyStrip (s : String) : String :=
  ⟨((s.toList.dropWhile pyIsSpace).reverse.dropWhile pyIsSpace).reverse⟩

/-- Auxiliary loop for `pySplit`: splits a character list at every
occurrence of `sep`, keeping empty pieces (Python `str.split(sep)`). -/
def pySplitAux (sep : Char) : List Char → List Char → List String
  | [], cur => [⟨cur.reverse⟩]
  | c :: rest, cur =>
    if c = sep then ⟨cur.reverse⟩ :: pySplitAux sep rest []
    else pySplitAux sep rest (c :: cur)

/-- Python `str.split(sep)` for a single-character separator:
`"".split(",") = [""]`, empty pieces are kept, order preserved. -/
def pySplit (s : String) (sep : Char) : List String :=
  pySplitAux sep s.toList []

/-- Python `str.lower()` restricted to ASCII letters (every string the
program compares is ASCII). -/
def pyLowerChar (c : Char) : Char :=
  if 65 ≤ c.toNat ∧ c.toNat ≤ 90 then Char.ofNat (c.toNat + 32) else c

/-- Python `str.lower()`. -/
def pyLower (s : String) : String :=
  ⟨s.toList.map pyLowerChar⟩

/-- Exceptions raised by the modelled code. `runtimeError` is Python's
`RuntimeError`, `valueError` is `ValueError`, `binasciiError` is
`binascii.Error` (raised by the base64 decoder), `naclValueError` is
`nacl.exceptions.ValueError` (raised by PyNaCl key constructors), and
`cryptoError` is `nacl.exceptions.CryptoError` (decryption failure). -/
inductive PyErr where
  | runtimeError (msg : String)
  | valueError (msg : String)
  | binasciiError (msg : String)
  | naclValueError (msg : String)
  | cryptoError (msg : String)
deriving DecidableEq, Repr

deriving instance DecidableEq for Except

/-- Decimal digit value of a character, if it is a digit. -/
def digitVal (c : Char) : Option Nat :=
  if 48 ≤ c.toNat ∧ c.toNat ≤ 57 then some (c.toNat - 48) else none

/-- Digits of a Python integer literal after the first digit: a single
underscore is allowed between digits (CPython `int()` grammar). -/
def pyIntDigits : List Char → Nat → Option Nat
  | [], acc => some acc
  | ['_'], _ => none
  | '_' :: c :: rest, acc =>
    match digitVal c with
    | some d => pyIntDigits rest (acc * 10 + d)
    | none => none
  | c :: rest, acc =>
    match digitVal c with
    | some d => pyIntDigits rest (acc * 10 + d)
    | none => none

/-- Magnitude part of a Python integer literal: one or more digits, with
single underscores allowed between digits. -/
def pyIntMag : List Char → Option Nat
  | [] => none
  | c :: rest =>
    match digitVal c with
    | some d => pyIntDigits rest d
    | none => none

/-- Signed Python integer literal body (after whitespace stripping). -/
def pyIntCore : List Char → Option Int
  | [] => none
  | '+' :: rest => (pyIntMag rest).map Int.ofNat
  | '-' :: rest => (pyIntMag rest).map (fun n => -(n : Int))
  | l => (pyIntMag l).map Int.ofNat

/-- Python `int(s)` in base 10: strips whitespace, accepts an optional
sign, fails with `ValueError` on anything else. -/
def pyInt (s : String) : Except PyErr Int :=
  match pyIntCore (pyStrip s).toList with
  | some n => .ok n
  | none =>
    .error (.valueError ("invalid literal for int() with base 10: " ++ s))

/-- A process environment: `os.environ` as a partial map. -/
def Env : Type := String → Option String

/-- Source: `os.getenv name default`: the stored value (even if empty) when the
variable is set, otherwise the default. -/
def getenv (env : Env) (name default : String) : String :=
  (env name).getD default

-- ---- Top-level constants of config.py (functions of the environment) ----

/-- Source: `TRUST_PROXY = os.getenv("TRUST_PROXY", "1") == "1"` -/
def TRUST_PROXY (env : Env) : Bool :=
  getenv env "TRUST_PROXY" "1" == "1"

/-- Source: `ROTATE_UTC = os.getenv("LOG_ROTATE_UTC", "1") == "1"` -/
def ROTATE_UTC (env : Env) : Bool :=
  getenv env "LOG_ROTATE_UTC" "1" == "1"

/-- The default value of the `REDACT_KEYS` environment variable. -/
def redactKeysDefault : String :=
  "password,new_password,current_password,token,authorization,secret"

/-- Source: `REDACT_KEYS = {k.strip().lower() for k in os.getenv("REDACT_KEYS", …).split(",") if k.strip()}`:
a Python set comprehension, modelled as a `Finset`. -/
def REDACT_KEYS (env : Env) : Finset String :=
  ((((pySplit (getenv env "REDACT_KEYS" redactKeysDefault) ',').filter
      (fun k => pyStrip k ≠ "")).map
      (fun k => pyLower (pyStrip k))).toFinset)

/-- Source: `PRIVATE_KEY_B64_PATH = os.getenv("APP_PRIVATE_KEY_B64_PATH")` —
no default, so the constant is `None` when the variable is unset. -/
def PRIVATE_KEY_B64_PATH (env : Env) : Option String :=
  env "APP_PRIVATE_KEY_B64_PATH"

/-- The list-comprehension parser used for `CORS_ALLOWED_ORIGINS`:
`[o.strip() for o in value.split(",") if o.strip()]`. -/
def parseCors (value : String) : List String :=
  ((pySplit value ',').filter (fun o => pyStrip o ≠ "")).map pyStrip

-- ---- App config holder ----

/-- A SQLAlchemy `Engine` handle as produced by
`create_engine(dsn, pool_pre_ping=True, future=True)`. The `id` field is
the value of a process-wide construction counter at creation time, so two
handles are "the identical object" exactly when they are equal. -/
structure Engine where
  id : Nat
  dsn : String
  pool_pre_ping : Bool
  future : Bool
deriving DecidableEq, Repr

/-- The `Config` dataclass of config.py. -/
structure Config where
  pg_dsn_app : String
  cors_allowed_origins : List String
  default_query_interval : Int
  _engine : Option Engine := none
deriving DecidableEq, Repr

/-- Source: `Config.engine`: lazily constructs and caches the engine handle.
State passing: the method takes the construction counter and returns the
updated dataclass instance, the updated counter, and the result.
Mirrors:
```
if self._engine is None:
    if not self.pg_dsn_app:
        raise RuntimeError("PG_DSN_APP is required")
    self._engine = create_engine(self.pg_dsn_app, pool_pre_ping=True, future=True)
return self._engine
``` -/
def Config.engine (c : Config) (nextId : Nat) :
    Config × Nat × Except PyErr Engine :=
  match c._engine with
  | some e => (c, nextId, .ok e)
  | none =>
    if c.pg_dsn_app = "" then
      (c, nextId, .error (.runtimeError "PG_DSN_APP is required"))
    else
      let e : Engine :=
        { id := nextId, dsn := c.pg_dsn_app, pool_pre_ping := true, future := true }
      ({ c with _engine := some e }, nextId + 1, .ok e)

/-- The result of the `k+1`-st consecutive call to `Config.engine`,
threading the instance and the construction counter through the first `k`
calls. -/
def engineCalls (c : Config) (nextId : Nat) :
    Nat → Config × Nat × Except PyErr Engine
  | 0 => Config.engine c nextId
  | k + 1 =>
    let r := Config.engine c nextId
    engineCalls r.1 r.2.1 k

/-- Source: `os.path.expanduser` / `Path.expanduser` restricted to the `~` form
(a `~user` component would consult the OS user database, which is outside
the model): a leading `~` component is replaced by the home directory. -/
def pathExpanduser (home : String) (p : String) : String :=
  if p = "~" then home
  else if (p.toList.take 2) = ['~', '/'] then home ++ ⟨p.toList.drop 1⟩
  else p

/-- Source: `Config.private_key_path`: `None` when the module-level
`PRIVATE_KEY_B64_PATH` constant is falsy (the environment variable was
unset or empty), otherwise `Path(PRIVATE_KEY_B64_PATH).expanduser()`.
`home` is the home directory used by `expanduser`. -/
def Config.private_key_path (_c : Config) (env : Env) (home : String) :
    Option String :=
  match PRIVATE_KEY_B64_PATH env with
  | none => none
  | some v => if v = "" then none else some (pathExpanduser home v)

-- ---- Global cfg instance factory ----

/-- The body of `load_config` that builds the new `Config` from the
environment (lines 60–63 of config.py); `int()` failure propagates. -/
def buildConfig (env : Env) : Except PyErr Config :=
  match pyInt (getenv env "DEFAULT_QUERY_INTERVAL" "21600") with
  | .error e => .error e
  | .ok default_interval =>
    .ok { pg_dsn_app := pyStrip (getenv env "PG_DSN_APP" "")
          cors_allowed_origins := parseCors (getenv env "CORS_ALLOWED_ORIGINS" "*")
          default_query_interval := default_interval
          _engine := none }

/-- Source: `load_config()`: takes the current value of the module-level `_cfg`
and returns the new `_cfg`, the exception propagated (if any), and the
number of passes over the environment made by this call. -/
def load_config (env : Env) (st : Option Config) :
    Option Config × Option PyErr × Nat :=
  match st with
  | some c => (some c, none, 0)
  | none =>
    match buildConfig env with
    | .ok c => (some c, none, 1)
    | .error e => (none, some e, 1)

/-- Source: `cfg()`: `if _cfg is None: load_config()` then `return _cfg`.
Returns the new `_cfg`, the exception (if any), and the value returned to
the caller (`none` exactly when the call raised). -/
def cfg (env : Env) (st : Option Config) :
    Option Config × Option PyErr × Option Config :=
  match st with
  | some c => (some c, none, some c)
  | none =>
    match load_config env none with
    | (st', some e, _) => (st', some e, none)
    | (st', none, _) => (st', none, st')

/-- A sequence of `load_config()` calls, each possibly under a different
environment; returns the final `_cfg` and the total number of environment
read passes. -/
def load_config_seq (st : Option Config) : List Env → Option Config × Nat
  | [] => (st, 0)
  | env :: rest =>
    let r := load_config env st
    let r' := load_config_seq r.1 rest
    (r'.1, r.2.2 + r'.2)

-- ---- crypto_utils_sodium.py ----

/-- Value of a byte in the base64 alphabet, if any
(CPython `binascii` `table_a2b_base64`). -/
def b64CharVal (c : Nat) : Option Nat :=
  if 65 ≤ c ∧ c ≤ 90 then some (c - 65)
  else if 97 ≤ c ∧ c ≤ 122 then some (c - 97 + 26)
  else if 48 ≤ c ∧ c ≤ 57 then some (c - 48 + 52)
  else if c = 43 then some 62
  else if c = 47 then some 63
  else none

/-- Modelled from the spec ("base64-decodes the entire input; fails …
if decoding fails"): the decoder `base64.b64decode` delegates to, CPython
`binascii.a2b_base64` in its default non-strict mode, which is library
code not under src/. Invalid characters are skipped; `=` completes the
current 4-character group once at least two data characters of it were
seen, and decoding then stops; a trailing incomplete group is an error.
Arguments: remaining input, `quad_pos`, `leftchar`, `pads`, output
accumulator (reversed). -/
def a2b_base64_loop : List Nat → Nat → Nat → Nat → List Nat →
    Except PyErr (List Nat)
  | [], quadPos, _, _, acc =>
    if quadPos = 0 then .ok acc.reverse
    else if quadPos = 1 then
      .error (.binasciiError "Invalid base64-encoded string: number of data characters (1) cannot be 1 more than a multiple of 4")
    else .error (.binasciiError "Incorrect padding")
  | ch :: rest, quadPos, left, pads, acc =>
    if ch = 61 then
      if 2 ≤ quadPos then
        if 4 ≤ quadPos + (pads + 1) then .ok acc.reverse
        else a2b_base64_loop rest quadPos left (pads + 1) acc
      else a2b_base64_loop rest quadPos left pads acc
    else
      match b64CharVal ch with
      | none => a2b_base64_loop rest quadPos left pads acc
      | some v =>
        match quadPos with
        | 0 => a2b_base64_loop rest 1 v 0 acc
        | 1 => a2b_base64_loop rest 2 (v % 16) 0 ((left * 4 + v / 16) :: acc)
        | 2 => a2b_base64_loop rest 3 (v % 4) 0 ((left * 16 + v / 4) :: acc)
        | _ => a2b_base64_loop rest 0 0 0 ((left * 64 + v) :: acc)

/-- Source: `base64.b64decode(data)` (default arguments): CPython
`binascii.a2b_base64` in non-strict mode. -/
def b64decode (data : List Nat) : Except PyErr (List Nat) :=
  a2b_base64_loop data 0 0 0 []

/-- Little-endian byte decoding of a byte list. -/
def bytesToNatLE : List Nat → Nat
  | [] => 0
  | b :: rest => b + 256 * bytesToNatLE rest

/-- Little-endian byte encoding of `n` into `w` bytes. -/
def natToBytesLE : Nat → Nat → List Nat
  | 0, _ => []
  | w + 1, n => n % 256 :: natToBytesLE w (n / 256)

/-- Modelled from the spec: PyNaCl's `PublicKey` (library code not under
src/) wraps exactly 32 bytes of key material. -/
structure PublicKey where
  bytes : List Nat
deriving DecidableEq, Repr

/-- Modelled from the spec: PyNaCl's `PrivateKey` (library code not under
src/) wraps exactly 32 bytes of key material. -/
structure PrivateKey where
  bytes : List Nat
deriving DecidableEq, Repr

/-- Source: `load_public_key_b64(data)`: `PublicKey(base64.b64decode(data))`.
The `PublicKey` constructor (PyNaCl, modelled from the spec) rejects any
input that is not exactly 32 bytes. -/
def load_public_key_b64 (data : List Nat) : Except PyErr PublicKey :=
  match b64decode data with
  | .error e => .error e
  | .ok bs =>
    if bs.length = 32 then .ok ⟨bs⟩
    else .error (.naclValueError "The public key must be exactly 32 bytes long")

/-- Source: `load_private_key_b64(data)`: `PrivateKey(base64.b64decode(data))`.
The `PrivateKey` constructor (PyNaCl, modelled from the spec) rejects any
input that is not exactly 32 bytes. -/
def load_private_key_b64 (data : List Nat) : Except PyErr PrivateKey :=
  match b64decode data with
  | .error e => .error e
  | .ok bs =>
    if bs.length = 32 then .ok ⟨bs⟩
    else .error (.naclValueError "The private key must be exactly 32 bytes long")

/-- The spec's `KeyFormatError` taxonomy entry: "key file content is not
valid base64 or decodes to the wrong length". In the code these surface
as `binascii.Error` and `nacl.exceptions.ValueError` respectively. -/
def isKeyFormatError : PyErr → Bool
  | .binasciiError _ => true
  | .naclValueError _ => true
  | _ => false

-- ---- Sealed box (modelled from the spec) ----

/-- Modelled from the spec (§4.2): the group modulus of the X25519-style
Diffie–Hellman exchange underlying the sealed box, `2^255 - 19`. -/
def dhP : Nat := 2 ^ 255 - 19

/-- Modelled from the spec (§4.2): the Diffie–Hellman base point. -/
def dhG : Nat := 9

/-- The scalar a 32-byte private key denotes. -/
def PrivateKey.scalar (sk : PrivateKey) : Nat := bytesToNatLE sk.bytes

/-- Modelled from the spec: the public key matching a private key is the
encoded Diffie–Hellman public group element `g ^ sk mod p`. -/
def PrivateKey.publicKey (sk : PrivateKey) : PublicKey :=
  ⟨natToBytesLE 32 (dhG ^ sk.scalar % dhP)⟩

/-- Modelled from the spec: a sealed-box ciphertext consists of the
ephemeral public key, the encrypted payload (one byte per plaintext
byte), and an authentication tag — `len(plaintext) + fixed overhead`.
The byte serialisation of the three parts is left abstract. -/
structure SealedCiphertext where
  epk : List Nat
  payload : List Nat
  tag : Nat
deriving DecidableEq, Repr

/-- Keystream byte `i` derived from the shared group element. -/
def keystreamByte (shared i : Nat) : Nat := (shared + i) % 256

/-- Encrypt a byte list under a keystream, starting at position `i`. -/
def streamEncrypt (shared : Nat) : Nat → List Nat → List Nat
  | _, [] => []
  | i, b :: rest =>
    (b + keystreamByte shared i) % 256 :: streamEncrypt shared (i + 1) rest

/-- Decrypt a byte list under a keystream, starting at position `i`. -/
def streamDecrypt (shared : Nat) : Nat → List Nat → List Nat
  | _, [] => []
  | i, b :: rest =>
    (b + (256 - keystreamByte shared i)) % 256 :: streamDecrypt shared (i + 1) rest

/-- The authentication tag over a shared element and a payload. -/
def sealTag (shared : Nat) (payload : List Nat) : Nat :=
  (shared + payload.sum) % 2 ^ 64

/-- Modelled from the spec (§4.2): `SealedBox(pk).encrypt(plaintext)` —
PyNaCl library code not under src/. A fresh ephemeral scalar `esk`
(the per-call randomness) yields an ephemeral public key; the shared
element `pk ^ esk mod p` keys an authenticated stream cipher. -/
def sealedBoxSeal (pk : PublicKey) (plaintext : List Nat) (esk : Nat) :
    SealedCiphertext :=
  let shared := bytesToNatLE pk.bytes ^ esk % dhP
  let payload := streamEncrypt shared 0 plaintext
  { epk := natToBytesLE 32 (dhG ^ esk % dhP)
    payload := payload
    tag := sealTag shared payload }

/-- Modelled from the spec (§4.2): `SealedBox(sk).decrypt(ciphertext)` —
PyNaCl library code not under src/. Recomputes the shared element from
the ephemeral public key, checks the tag, and fails with a
`CryptoError` on authentication failure. -/
def sealedBoxOpen (sk : PrivateKey) (c : SealedCiphertext) :
    Except PyErr (List Nat) :=
  let shared := bytesToNatLE c.epk ^ sk.scalar % dhP
  if c.tag = sealTag shared c.payload then
    .ok (streamDecrypt shared 0 c.payload)
  else .error (.cryptoError "An error occurred trying to decrypt the message")

/-- Source: `sealedbox_encrypt(pk, plaintext)`: `SealedBox(pk).encrypt(plaintext)`.
`esk` is the ephemeral randomness drawn inside the primitive. -/
def sealedbox_encrypt (pk : PublicKey) (plaintext : List Nat) (esk : Nat) :
    SealedCiphertext :=
  sealedBoxSeal pk plaintext esk

/-- Source: `sealedbox_decrypt(sk, ciphertext)`: `SealedBox(sk).decrypt(ciphertext)`. -/
def sealedbox_decrypt (sk : PrivateKey) (c : SealedCiphertext) :
    Except PyErr (List Nat) :=
  sealedBoxOpen sk c

-- ======================= Theorems =======================

/-- Helper: mapping `pyStrip` commutes with filtering on the stripped
value being non-empty. -/
theorem map_strip_filter_comm (l : List String) :
    (l.filter (fun o => pyStrip o ≠ "")).map pyStrip
      = (l.map pyStrip).filter (fun t => t ≠ "") := by
  induction l with
  | nil => rfl
  | cons a l ih =>
    by_cases h : pyStrip a = "" <;>
      simpa [List.filter_cons, List.map_cons, h] using ih

/-- C6: for the boolean environment variables `TRUST_PROXY` and
`LOG_ROTATE_UTC`, the parsed flag is `true` exactly when the environment
value (absence replaced by the flag's default string `"1"`) is the
literal string `"1"`; in particular `"0"`, `"yes"` and `"true"` parse to
`false`. -/
theorem bool_env_vars_parse_iff_literal_one :
    (∀ env : Env, TRUST_PROXY env = true ↔ getenv env "TRUST_PROXY" "1" = "1")
    ∧ (∀ env : Env, ROTATE_UTC env = true ↔ getenv env "LOG_ROTATE_UTC" "1" = "1")
    ∧ TRUST_PROXY (fun n => if n = "TRUST_PROXY" then some "0" else none) = false
    ∧ TRUST_PROXY (fun n => if n = "TRUST_PROXY" then some "yes" else none) = false
    ∧ TRUST_PROXY (fun n => if n = "TRUST_PROXY" then some "true" else none) = false
    ∧ TRUST_PROXY (fun _ => none) = true
    ∧ ROTATE_UTC (fun n => if n = "LOG_ROTATE_UTC" then some "0" else none) = false
    ∧ ROTATE_UTC (fun n => if n = "LOG_ROTATE_UTC" then some "yes" else none) = false
    ∧ ROTATE_UTC (fun n => if n = "LOG_ROTATE_UTC" then some "true" else none) = false
    ∧ ROTATE_UTC (fun _ => none) = true := by
  refine ⟨fun env => ?_, fun env => ?_, ?_, ?_, ?_, ?_, ?_, ?_, ?_, ?_⟩ <;>
    first
      | decide
      | simp [TRUST_PROXY, ROTATE_UTC, beq_iff_eq]

/-- C7: `CORS_ALLOWED_ORIGINS` is parsed by splitting on commas,
trimming each element, dropping elements empty after trimming,
preserving order without deduplication; `" a , b ,,c "` yields
`["a", "b", "c"]`. -/
theorem cors_parse_split_trim_drop :
    (∀ value : String,
      parseCors value = ((pySplit value ',').map pyStrip).filter (fun t => t ≠ ""))
    ∧ parseCors " a , b ,,c " = ["a", "b", "c"]
    ∧ parseCors "x, x ,y" = ["x", "x", "y"] := by
  refine ⟨fun value => map_strip_filter_comm _, by decide, by decide⟩

/-- C8: `REDACT_KEYS` parses to a set whose members are exactly the
comma-separated entries trimmed, lowercased, with empties dropped
(deduplication and order-irrelevance are inherent to the set); the value
`"Token, PASSWORD"` yields the set `{"token", "password"}`. -/
theorem redact_keys_parse_set :
    REDACT_KEYS (fun n => if n = "REDACT_KEYS" then some "Token, PASSWORD" else none)
      = {"token", "password"}
    ∧ ∀ (env : Env) (x : String),
        x ∈ REDACT_KEYS env ↔
          ∃ k ∈ pySplit (getenv env "REDACT_KEYS" redactKeysDefault) ',',
            pyStrip k ≠ "" ∧ x = pyLower (pyStrip k) := by
  refine ⟨by decide, fun env x => ?_⟩
  simp only [REDACT_KEYS, List.mem_toFinset, List.mem_map, List.mem_filter]
  constructor
  · rintro ⟨k, ⟨hk, hne⟩, rfl⟩
    exact ⟨k, hk, by simpa using hne, rfl⟩
  · rintro ⟨k, hk, hne, rfl⟩
    exact ⟨k, ⟨hk, by simpa using hne⟩, rfl⟩

/-- C9: `private_key_path` returns nothing exactly when the private-key
environment variable was unset or empty at process start, and otherwise
the configured path with `~` expansion applied. -/
theorem private_key_path_optional_expanded :
    ∀ (c : Config) (env : Env) (home : String),
      (Config.private_key_path c env home = none ↔
        PRIVATE_KEY_B64_PATH env = none ∨ PRIVATE_KEY_B64_PATH env = some "")
      ∧ ∀ v : String, PRIVATE_KEY_B64_PATH env = some v → v ≠ "" →
          Config.private_key_path c env home = some (pathExpanduser home v) := by
  intro c env home
  constructor
  · unfold Config.private_key_path
    cases hv : PRIVATE_KEY_B64_PATH env with
    | none => simp
    | some v =>
      by_cases h : v = "" <;> simp [h]
  · intro v hv hne
    unfold Config.private_key_path
    rw [hv]
    simp [hne]

/-- Witness for C9 at a concrete environment: a set, non-empty variable
with a `~/` path expands against the home directory. -/
theorem private_key_path_optional_expanded_witness :
    Config.private_key_path ⟨"", ["*"], 21600, none⟩
      (fun n => if n = "APP_PRIVATE_KEY_B64_PATH" then some "~/key.b64" else none)
      "/home/u" = some "/home/u/key.b64" := by
  have h := (private_key_path_optional_expanded ⟨"", ["*"], 21600, none⟩
      (fun n => if n = "APP_PRIVATE_KEY_B64_PATH" then some "~/key.b64" else none)
      "/home/u").2 "~/key.b64" (by decide) (by decide)
  simpa using h

/-- Helper: with an empty DSN and no cached engine, `Config.engine`
raises `RuntimeError("PG_DSN_APP is required")` and changes nothing. -/
theorem engine_empty_dsn_aux (c : Config) (n : Nat)
    (hdsn : c.pg_dsn_app = "") (heng : c._engine = none) :
    Config.engine c n = (c, n, .error (.runtimeError "PG_DSN_APP is required")) := by
  unfold Config.engine
  rw [heng, hdsn]
  simp

/-- C3 (counterexample to the claimed error): on the empty-DSN,
engine-not-yet-constructed `Config`, the failure raised by `engine()` is
`RuntimeError` with message `"PG_DSN_APP is required"`, not an error
carrying the message `"database DSN is required"`. -/
theorem engine_empty_dsn_message_counterexample :
    (Config.engine ⟨"", ["*"], 21600, none⟩ 0).2.2
      = .error (.runtimeError "PG_DSN_APP is required")
    ∧ "PG_DSN_APP is required" ≠ "database DSN is required" := by
  constructor
  · decide
  · decide

/-- C3 (amended): for every `Config` whose `pg_dsn_app` is the empty
string and whose engine has not yet been constructed, calling `engine()`
fails with `RuntimeError` carrying the message
`"PG_DSN_APP is required"`, and after the failure no engine handle is
cached (the instance and the construction counter are unchanged). -/
theorem engine_empty_dsn_fails_uncached :
    ∀ (c : Config) (n : Nat), c.pg_dsn_app = "" → c._engine = none →
      Config.engine c n = (c, n, .error (.runtimeError "PG_DSN_APP is required"))
      ∧ ((Config.engine c n).1)._engine = none := by
  intro c n hdsn heng
  refine ⟨engine_empty_dsn_aux c n hdsn heng, ?_⟩
  rw [engine_empty_dsn_aux c n hdsn heng]
  exact heng

/-- Witness for the amended C3 at a concrete empty-DSN `Config`. -/
theorem engine_empty_dsn_fails_uncached_witness :
    Config.engine ⟨"", ["*"], 21600, none⟩ 7
      = (⟨"", ["*"], 21600, none⟩, 7, .error (.runtimeError "PG_DSN_APP is required")) :=
  (engine_empty_dsn_fails_uncached ⟨"", ["*"], 21600, none⟩ 7 rfl rfl).1

/-- Helper: once a call to `Config.engine` has returned a handle, the
instance is a fixed point: the same handle is returned and neither the
instance nor the construction counter changes. -/
theorem engine_step_fixed (c : Config) (n : Nat) (c' : Config) (n' : Nat)
    (e : Engine) (h : Config.engine c n = (c', n', .ok e)) :
    Config.engine c' n' = (c', n', .ok e) ∧ c'._engine = some e := by
  unfold Config.engine at h
  cases hE : c._engine with
  | some e0 =>
    rw [hE] at h
    simp only [Prod.mk.injEq] at h
    obtain ⟨rfl, rfl, h3⟩ := h
    obtain rfl : e0 = e := by simpa using h3
    constructor
    · unfold Config.engine
      rw [hE]
    · exact hE
  | none =>
    rw [hE] at h
    by_cases hdsn : c.pg_dsn_app = ""
    · simp [hdsn] at h
    · rw [if_neg hdsn] at h
      simp only [Prod.mk.injEq] at h
      obtain ⟨h1, rfl, h3⟩ := h
      obtain rfl : Engine.mk n c.pg_dsn_app true true = e := by simpa using h3
      subst h1
      constructor
      · unfold Config.engine
        rfl
      · rfl

/-- C4: once `engine()` has succeeded on an instance, every later call
on that instance returns the identical cached handle, the handle is the
cached field, and construction is never re-attempted (the construction
counter never advances again). -/
theorem engine_cached_handle_identity :
    ∀ (c : Config) (n : Nat) (c' : Config) (n' : Nat) (e : Engine),
      Config.engine c n = (c', n', .ok e) →
      (∀ k : Nat, engineCalls c' n' k = (c', n', .ok e))
      ∧ c'._engine = some e := by
  intro c n c' n' e h
  obtain ⟨hstep, hcache⟩ := engine_step_fixed c n c' n' e h
  refine ⟨fun k => ?_, hcache⟩
  induction k with
  | zero => exact hstep
  | succ k ih =>
    unfold engineCalls
    rw [hstep]
    exact ih

/-- Witness for C4: after a successful first construction, five further
calls still return the handle built with construction-counter value 0,
and the counter stays at 1. -/
theorem engine_cached_handle_identity_witness :
    engineCalls ⟨"postgresql://db", ["*"], 21600,
        some ⟨0, "postgresql://db", true, true⟩⟩ 1 5
      = (⟨"postgresql://db", ["*"], 21600, some ⟨0, "postgresql://db", true, true⟩⟩,
         1, .ok ⟨0, "postgresql://db", true, true⟩) :=
  (engine_cached_handle_identity ⟨"postgresql://db", ["*"], 21600, none⟩ 0
    ⟨"postgresql://db", ["*"], 21600, some ⟨0, "postgresql://db", true, true⟩⟩ 1
    ⟨0, "postgresql://db", true, true⟩ (by decide)).1 5

/-- Helper: a sequence of `load_config` calls starting from an already
constructed singleton leaves the singleton untouched and reads the
environment zero times. -/
theorem load_config_seq_stable (c : Config) :
    ∀ envs : List Env, load_config_seq (some c) envs = (some c, 0) := by
  intro envs
  induction envs with
  | nil => rfl
  | cons env rest ih => simp [load_config_seq, load_config, ih]

/-- C2: once the first `load_config()` call has constructed the
singleton, every later call (under any environment) is a no-op that
neither re-reads the environment nor replaces the singleton, `cfg()`
returns the identical instance on every call, and over any whole call
sequence the environment is read exactly once. -/
theorem load_config_idempotent_singleton :
    ∀ (env : Env) (c : Config) (envs : List Env),
      buildConfig env = .ok c →
      load_config_seq none (env :: envs) = (some c, 1)
      ∧ (∀ env' : Env, load_config env' (some c) = (some c, none, 0))
      ∧ (∀ env' : Env, cfg env' (some c) = (some c, none, some c)) := by
  intro env c envs hbuild
  refine ⟨?_, fun env' => rfl, fun env' => rfl⟩
  simp [load_config_seq, load_config, hbuild, load_config_seq_stable]

/-- Witness for C2: two calls under different environments read the
environment once and keep the first snapshot. -/
theorem load_config_idempotent_singleton_witness :
    load_config_seq none [(fun _ => none : Env), (fun _ => some "x" : Env)]
      = (some ⟨"", ["*"], 21600, none⟩, 1) :=
  (load_config_idempotent_singleton (fun _ => none) ⟨"", ["*"], 21600, none⟩
    [(fun _ => some "x" : Env)] (by decide)).1

/-- Helper: stripping a string consisting only of whitespace yields the
empty string. -/
theorem pyStrip_all_space (v : String) (h : v.toList.all pyIsSpace) :
    pyStrip v = "" := by
  unfold pyStrip
  have hd : v.toList.dropWhile pyIsSpace = [] := by
    rw [List.dropWhile_eq_nil_iff]
    intro x hx
    exact List.all_eq_true.mp h x hx
  rw [hd]
  rfl

/-- C10: `load_config()` strips whitespace from the `PG_DSN_APP` value
before storing it; a whitespace-only value therefore stores the empty
string, and the first `engine()` call on that `Config` fails instead of
constructing a pool. -/
theorem pg_dsn_stripped_and_engine_fails :
    ∀ (env : Env) (v : String) (c : Config),
      env "PG_DSN_APP" = some v →
      buildConfig env = .ok c →
      c.pg_dsn_app = pyStrip v
      ∧ (v.toList.all pyIsSpace →
          c.pg_dsn_app = ""
          ∧ ∀ n : Nat, Config.engine c n
              = (c, n, .error (.runtimeError "PG_DSN_APP is required"))) := by
  intro env v c hv hbuild
  unfold buildConfig at hbuild
  cases hInt : pyInt (getenv env "DEFAULT_QUERY_INTERVAL" "21600") with
  | error e => rw [hInt] at hbuild; cases hbuild
  | ok i =>
    rw [hInt] at hbuild
    simp only [Except.ok.injEq] at hbuild
    subst hbuild
    have hpg : getenv env "PG_DSN_APP" "" = v := by
      unfold getenv
      rw [hv]
      rfl
    refine ⟨by simp [hpg], fun hsp => ?_⟩
    have h0 : pyStrip v = "" := pyStrip_all_space v hsp
    refine ⟨by simp [hpg, h0], fun n => ?_⟩
    exact engine_empty_dsn_aux _ n (by simp [hpg, h0]) rfl

/-- Witness for C10: with `PG_DSN_APP` set to three spaces, the stored
DSN is empty and the first `engine()` call fails. -/
theorem pg_dsn_stripped_and_engine_fails_witness :
    Config.engine ⟨"", ["*"], 21600, none⟩ 0
      = (⟨"", ["*"], 21600, none⟩, 0, .error (.runtimeError "PG_DSN_APP is required")) := by
  have h := pg_dsn_stripped_and_engine_fails
    (fun n => if n = "PG_DSN_APP" then some "   " else none) "   "
    ⟨"", ["*"], 21600, none⟩ (by decide) (by decide)
  exact (h.2 (by decide)).2 0

/-- Helper: every error produced by the base64 decoding loop is a
`binascii.Error`. -/
theorem a2b_loop_error_binascii :
    ∀ (l : List Nat) (q left pads : Nat) (acc : List Nat) (e : PyErr),
      a2b_base64_loop l q left pads acc = .error e → ∃ m, e = .binasciiError m := by
  intro l
  induction l with
  | nil =>
    intro q left pads acc e h
    unfold a2b_base64_loop at h
    split at h
    · exact Except.noConfusion h
    · split at h
      · injection h with h2
        exact ⟨_, h2.symm⟩
      · injection h with h2
        exact ⟨_, h2.symm⟩
  | cons ch rest ih =>
    intro q left pads acc e h
    unfold a2b_base64_loop at h
    split at h
    · split at h
      · split at h
        · exact Except.noConfusion h
        · exact ih _ _ _ _ _ h
      · exact ih _ _ _ _ _ h
    · cases hb : b64CharVal ch with
      | none => rw [hb] at h; exact ih _ _ _ _ _ h
      | some v =>
        rw [hb] at h
        match q with
        | 0 => exact ih _ _ _ _ _ h
        | 1 => exact ih _ _ _ _ _ h
        | 2 => exact ih _ _ _ _ _ h
        | _ + 3 => exact ih _ _ _ _ _ h

/-- C5: `load_public_key_b64` and `load_private_key_b64` succeed exactly
when the input base64-decodes (under the decoder the code uses) to
exactly 32 bytes; every failure is a `KeyFormatError` in the spec's
taxonomy (`binascii.Error` from decoding, `nacl.exceptions.ValueError`
from the length check); concretely, inputs decoding to 31 or 33 bytes
fail and an input decoding to 32 bytes succeeds. -/
theorem key_loaders_fail_iff_not_32_bytes :
    (∀ data : List Nat,
      ((∃ k, load_public_key_b64 data = .ok k) ↔
        (∃ bs, b64decode data = .ok bs ∧ bs.length = 32))
      ∧ ((∃ k, load_private_key_b64 data = .ok k) ↔
        (∃ bs, b64decode data = .ok bs ∧ bs.length = 32))
      ∧ (∀ e, load_public_key_b64 data = .error e → isKeyFormatError e = true)
      ∧ (∀ e, load_private_key_b64 data = .error e → isKeyFormatError e = true))
    ∧ (load_public_key_b64 (List.replicate 42 65 ++ [61, 61])).isOk = false
    ∧ (load_public_key_b64 (List.replicate 44 65)).isOk = false
    ∧ (load_public_key_b64 (List.replicate 43 65 ++ [61])).isOk = true
    ∧ (load_private_key_b64 (List.replicate 42 65 ++ [61, 61])).isOk = false
    ∧ (load_private_key_b64 (List.replicate 44 65)).isOk = false
    ∧ (load_private_key_b64 (List.replicate 43 65 ++ [61])).isOk = true := by
  refine ⟨fun data => ?_, by decide, by decide, by decide, by decide, by decide, by decide⟩
  cases hd : b64decode data with
  | error e0 =>
    obtain ⟨m, rfl⟩ := a2b_loop_error_binascii data 0 0 0 [] e0 hd
    refine ⟨?_, ?_, ?_, ?_⟩ <;>
      simp [load_public_key_b64, load_private_key_b64, hd, isKeyFormatError]
  | ok bs =>
    by_cases hl : bs.length = 32 <;>
      refine ⟨?_, ?_, ?_, ?_⟩ <;>
        simp [load_public_key_b64, load_private_key_b64, hd, hl, isKeyFormatError]

/-- Witness for C5: the error on a 33-byte decode is classified as a
`KeyFormatError`. -/
theorem key_loaders_fail_iff_not_32_bytes_witness :
    isKeyFormatError (.naclValueError "The public key must be exactly 32 bytes long")
      = true :=
  (key_loaders_fail_iff_not_32_bytes.1 (List.replicate 44 65)).2.2.1 _ (by decide)

/-- Helper: little-endian byte encoding into `w` bytes is inverted by
decoding, for values below `256 ^ w`. -/
theorem bytesToNatLE_natToBytesLE :
    ∀ (w n : Nat), n < 256 ^ w → bytesToNatLE (natToBytesLE w n) = n := by
  intro w
  induction w with
  | zero =>
    intro n h
    simp only [natToBytesLE, bytesToNatLE]
    simp only [pow_zero] at h
    omega
  | succ w ih =>
    intro n h
    simp only [natToBytesLE, bytesToNatLE]
    have h2 : n < 256 ^ w * 256 := by
      rw [← pow_succ]
      exact h
    rw [ih (n / 256) ((Nat.div_lt_iff_lt_mul (by norm_num)).mpr h2)]
    omega

/-- Helper: the two ways of computing the Diffie–Hellman shared element
agree: `(g^a mod p)^b = (g^b mod p)^a (mod p)`. -/
theorem dh_shared_comm (a b : Nat) :
    (dhG ^ a % dhP) ^ b % dhP = (dhG ^ b % dhP) ^ a % dhP := by
  rw [← Nat.pow_mod, ← Nat.pow_mod, ← pow_mul, ← pow_mul, Nat.mul_comm]

/-- Helper: the decrypting keystream pass inverts the encrypting one on
byte values. -/
theorem streamDecrypt_streamEncrypt (s : Nat) :
    ∀ (m : List Nat) (i : Nat), (∀ b ∈ m, b < 256) →
      streamDecrypt s i (streamEncrypt s i m) = m := by
  intro m
  induction m with
  | nil =>
    intro i _
    rfl
  | cons b rest ih =>
    intro i h
    have hb : b < 256 := h b (List.mem_cons_self b rest)
    have hk : keystreamByte s i < 256 := Nat.mod_lt _ (by norm_num)
    simp only [streamEncrypt, streamDecrypt]
    rw [ih (i + 1) (fun x hx => h x (List.mem_cons_of_mem b hx))]
    congr 1
    omega

/-- C1: for every plaintext byte sequence and every key pair whose
public key matches the private key, decrypting an encryption returns
exactly the plaintext, whatever ephemeral randomness the encryption
drew. -/
theorem sealedbox_encrypt_decrypt_roundtrip :
    ∀ (sk : PrivateKey) (pk : PublicKey) (plaintext : List Nat) (esk : Nat),
      pk = sk.publicKey →
      (∀ b ∈ plaintext, b < 256) →
      sealedbox_decrypt sk (sealedbox_encrypt pk plaintext esk) = .ok plaintext := by
  intro sk pk m esk hpk hm
  subst hpk
  have hPpos : 0 < dhP := by decide
  have hPle : dhP < 256 ^ 32 := by decide
  have h1 : bytesToNatLE (natToBytesLE 32 (dhG ^ esk % dhP)) = dhG ^ esk % dhP :=
    bytesToNatLE_natToBytesLE 32 _ (lt_trans (Nat.mod_lt _ hPpos) hPle)
  have h2 : bytesToNatLE (natToBytesLE 32 (dhG ^ sk.scalar % dhP))
      = dhG ^ sk.scalar % dhP :=
    bytesToNatLE_natToBytesLE 32 _ (lt_trans (Nat.mod_lt _ hPpos) hPle)
  unfold sealedbox_decrypt sealedbox_encrypt sealedBoxOpen sealedBoxSeal
    PrivateKey.publicKey
  simp only [h1, h2, dh_shared_comm esk sk.scalar, if_pos rfl]
  rw [streamDecrypt_streamEncrypt _ m 0 hm]
  simp

/-- Witness for C1 on a concrete key pair, plaintext and ephemeral. -/
theorem sealedbox_encrypt_decrypt_roundtrip_witness :
    sealedbox_decrypt ⟨2 :: List.replicate 31 0⟩
      (sealedbox_encrypt (PrivateKey.publicKey ⟨2 :: List.replicate 31 0⟩)
        [104, 105] 3)
      = .ok [104, 105] :=
  sealedbox_encrypt_decrypt_roundtrip ⟨2 :: List.replicate 31 0⟩ _ [104, 105] 3 rfl
    (by decide)
